import Mathlib

/-!
Verification of the igloo-ts resource-wrapper layer.

The TypeScript source wraps a WebGL rendering context in small stateful
objects (Buffer, Texture, Framebuffer, Program, Igloo facade).  Each wrapper
method is embedded here as a pure Lean function that returns the updated
wrapper state together with the list of calls it issues to the underlying
graphics context, so that caching and dispatch behaviour can be stated as
theorems about the emitted call trace.
-/

namespace IglooTS

/- WebGL enumeration constants, with the numeric values fixed by the WebGL
specification that the source refers to through the context object. -/

def GL_ARRAY_BUFFER : Nat := 0x8892

def GL_ELEMENT_ARRAY_BUFFER : Nat := 0x8893

def GL_DYNAMIC_DRAW : Nat := 0x88E8

def GL_STATIC_DRAW : Nat := 0x88E4

def GL_FLOAT : Nat := 0x1406

def GL_UNSIGNED_BYTE : Nat := 0x1401

def GL_VERTEX_SHADER : Nat := 0x8B31

def GL_FRAGMENT_SHADER : Nat := 0x8B30

def GL_DEPTH_COMPONENT16 : Nat := 0x81A5

def GL_DEPTH_ATTACHMENT : Nat := 0x8D00

/-- One call issued to the underlying WebGL context.  Each constructor
records the arguments that the corresponding context entry point receives
from the wrapper code (opaque GPU handles are modelled as natural numbers,
shader-variable locations as integers, and a JS `null` handle as `none`). -/
inductive GLCall where
  | bindBuffer (target handle : Nat)
  | bufferData (target byteLength usage : Nat)
  | bufferSubData (target offset byteLength : Nat)
  | createProgram
  | createShader (shaderType : Nat)
  | shaderSource (shaderType : Nat) (source : String)
  | compileShader (shaderType : Nat)
  | attachShader (shaderType : Nat)
  | linkProgram
  | getUniformLocation (name : String)
  | getAttribLocation (name : String)
  | callUniformMethod (method : String) (loc : Int) (xs : List Int)
  | uniform1f (loc : Int) (x : Int)
  | uniform1i (loc : Int) (x : Int)
  | callMatrixMethod (method : String) (loc : Int) (transpose : Bool)
  | enableVertexAttribArray (loc : Int)
  | vertexAttribPointer (loc : Int) (size : Option Int) (type : Nat)
      (normalized : Bool) (stride : Int) (offset : Int)
  | bindTexture (handle : Nat)
  | texImage2D (format : Nat) (width height : Option Int) (type : Nat) (bytes : List Int)
  | texImage2DSource (format : Nat) (type : Nat)
  | texSubImage2D (xoff yoff : Int) (width height : Option Int) (format type : Nat)
      (bytes : List Int)
  | texSubImage2DSource (xoff yoff : Int) (format type : Nat)
  | bindFramebuffer (handle : Option Nat)
  | createFramebuffer (handle : Nat)
  | createRenderbuffer (handle : Nat)
  | renderbufferStorage (format width height : Nat)
  | framebufferRenderbuffer (attachment renderbuffer : Nat)
  deriving DecidableEq, Repr

/-! ## Buffer wrapper (src/src/Buffer.ts) -/

/-- Runtime shape of the `data` argument of `Buffer.update`: either a plain
JS number array (`data instanceof Array`), carried with its element values,
or an `ArrayBuffer` / `ArrayBufferView`, carried with its byte length, which
is the only property of it the wrapper reads. -/
inductive BufferData where
  | arr (xs : List Int)
  | view (byteLength : Nat)
  deriving DecidableEq, Repr

/-- Byte length of the data after the coercion at the top of `update`
(`if (data instanceof Array) data = new Float32Array(data)`).  A
`Float32Array` built from an array of length n has byte length 4 * n. -/
def BufferData.coercedByteLength : BufferData → Nat
  | .arr xs => 4 * xs.length
  | .view byteLength => byteLength

/-- State of a `Buffer` wrapper: binding target, GPU handle, and the cached
byte size of the last upload (`this.size`, initialised to the sentinel -1). -/
structure Buffer where
  target : Nat
  buffer : Nat
  size : Int
  deriving DecidableEq, Repr

/-- The `Buffer` constructor: `this.buffer = gl.createBuffer();
this.target = (target == null ? gl.ARRAY_BUFFER : target); this.size = -1;`.
The handle returned by `gl.createBuffer()` is passed in as `handle`. -/
def Buffer.construct (handle : Nat) (target : Option Nat) : Buffer :=
  { target := target.getD GL_ARRAY_BUFFER, buffer := handle, size := -1 }

/-- Calls issued by `Buffer.bind`: `gl.bindBuffer(this.target, this.buffer)`. -/
def Buffer.bindCalls (b : Buffer) : List GLCall :=
  [GLCall.bindBuffer b.target b.buffer]

/-- `Buffer.update(data, usage)`: coerce a plain array to a `Float32Array`,
default a null usage to `gl.DYNAMIC_DRAW`, bind, then either reallocate with
`gl.bufferData` (when `this.size !== data.byteLength`), recording the new
size, or patch in place with `gl.bufferSubData(target, 0, data)`. -/
def Buffer.update (b : Buffer) (data : BufferData) (usage : Option Nat) :
    Buffer × List GLCall :=
  let d := data.coercedByteLength
  let u := usage.getD GL_DYNAMIC_DRAW
  if b.size ≠ (d : Int) then
    ({ b with size := (d : Int) },
     b.bindCalls ++ [GLCall.bufferData b.target d u])
  else
    (b, b.bindCalls ++ [GLCall.bufferSubData b.target 0 d])

/-- A sequence of `update` calls on the same buffer, threading the wrapper
state and concatenating the emitted context calls. -/
def Buffer.updates (b : Buffer) : List (BufferData × Option Nat) → Buffer × List GLCall
  | [] => (b, [])
  | (d, u) :: rest =>
    let s1 := b.update d u
    let s2 := s1.1.updates rest
    (s2.1, s1.2 ++ s2.2)

/-- Number of full reallocation uploads (`gl.bufferData`) in a trace. -/
def countBufferData (t : List GLCall) : Nat :=
  t.countP fun c => match c with | GLCall.bufferData _ _ _ => true | _ => false

/-- Number of in-place partial updates (`gl.bufferSubData`) in a trace. -/
def countBufferSubData (t : List GLCall) : Nat :=
  t.countP fun c => match c with | GLCall.bufferSubData _ _ _ => true | _ => false

theorem update_realloc (b : Buffer) (d : BufferData) (u : Option Nat)
    (h : b.size ≠ (d.coercedByteLength : Int)) :
    b.update d u = ({ b with size := (d.coercedByteLength : Int) },
      [GLCall.bindBuffer b.target b.buffer,
       GLCall.bufferData b.target d.coercedByteLength (u.getD GL_DYNAMIC_DRAW)]) := by
  simp [Buffer.update, Buffer.bindCalls, h]

theorem update_subdata (b : Buffer) (d : BufferData) (u : Option Nat)
    (h : b.size = (d.coercedByteLength : Int)) :
    b.update d u = (b,
      [GLCall.bindBuffer b.target b.buffer,
       GLCall.bufferSubData b.target 0 d.coercedByteLength]) := by
  simp [Buffer.update, Buffer.bindCalls, h]

/-- Same-size updates never reallocate: starting from a buffer whose cached
size equals L, a run of updates whose data all have byte length L leaves the
state unchanged, issues no `bufferData` call, and issues one `bufferSubData`
call per update. -/
theorem updates_same_size (L : Nat) :
    ∀ (ds : List (BufferData × Option Nat)) (b : Buffer),
      b.size = (L : Int) → (∀ p ∈ ds, p.1.coercedByteLength = L) →
      (b.updates ds).1 = b ∧
      countBufferData (b.updates ds).2 = 0 ∧
      countBufferSubData (b.updates ds).2 = ds.length := by
  intro ds
  induction ds with
  | nil =>
    intro b _ _
    simp [Buffer.updates, countBufferData, countBufferSubData]
  | cons p rest ih =>
    intro b hb hall
    obtain ⟨d, u⟩ := p
    have hd : d.coercedByteLength = L := hall (d, u) (List.mem_cons_self _ _)
    have hsz : b.size = (d.coercedByteLength : Int) := by rw [hd, hb]
    have hrest := ih b hb (fun q hq => hall q (List.mem_cons_of_mem _ hq))
    simp only [Buffer.updates, update_subdata b d u hsz]
    refine ⟨hrest.1, ?_, ?_⟩
    · simp [countBufferData, List.countP_append] at hrest ⊢
      exact hrest.2.1
    · simp [countBufferSubData, List.countP_append] at hrest ⊢
      omega

/-- C1: `Buffer.update` binds and then reallocates (recording the new byte
length) exactly when the byte length of the data differs from the cached
size, performs a single in-place `bufferSubData` at offset 0 otherwise, the
cached size starts at the unset sentinel -1 so the first update always
reallocates, and across a nonempty run of same-size updates on a fresh
buffer exactly one reallocation and N-1 partial updates are issued. -/
theorem C1_update_realloc_policy :
    (∀ (handle : Nat) (tgt : Option Nat), (Buffer.construct handle tgt).size = -1) ∧
    (∀ (b : Buffer) (d : BufferData) (u : Option Nat),
      b.size ≠ (d.coercedByteLength : Int) →
      b.update d u = ({ b with size := (d.coercedByteLength : Int) },
        [GLCall.bindBuffer b.target b.buffer,
         GLCall.bufferData b.target d.coercedByteLength (u.getD GL_DYNAMIC_DRAW)])) ∧
    (∀ (b : Buffer) (d : BufferData) (u : Option Nat),
      b.size = (d.coercedByteLength : Int) →
      b.update d u = (b,
        [GLCall.bindBuffer b.target b.buffer,
         GLCall.bufferSubData b.target 0 d.coercedByteLength])) ∧
    (∀ (handle : Nat) (tgt : Option Nat) (L : Nat) (ds : List (BufferData × Option Nat)),
      ds ≠ [] → (∀ p ∈ ds, p.1.coercedByteLength = L) →
      countBufferData ((Buffer.construct handle tgt).updates ds).2 = 1 ∧
      countBufferSubData ((Buffer.construct handle tgt).updates ds).2 = ds.length - 1) := by
  refine ⟨fun handle tgt => rfl, update_realloc, update_subdata, ?_⟩
  intro handle tgt L ds hne hall
  match ds with
  | [] => exact absurd rfl hne
  | (d, u) :: rest =>
    have hd : d.coercedByteLength = L := hall (d, u) (List.mem_cons_self _ _)
    have hs : (Buffer.construct handle tgt).size ≠ (d.coercedByteLength : Int) := by
      simp [Buffer.construct]
    have hstep := update_realloc (Buffer.construct handle tgt) d u hs
    have hb1 : ((Buffer.construct handle tgt).update d u).1.size = (L : Int) := by
      rw [hstep, hd]
    have hrest := updates_same_size L rest ((Buffer.construct handle tgt).update d u).1
      hb1 (fun q hq => hall q (List.mem_cons_of_mem _ hq))
    simp only [Buffer.updates]
    constructor
    · simp only [countBufferData, List.countP_append]
      rw [hstep]
      simpa [countBufferData] using hrest.2.1
    · simp only [countBufferSubData, List.countP_append]
      rw [hstep]
      simp only [List.length_cons]
      have := hrest.2.2
      simp only [countBufferSubData] at this
      rw [hstep] at this
      simp [List.countP_cons] at this ⊢
      omega

/-- Witness for C1 at concrete inputs: a fresh buffer, one reallocating
update of 8 bytes, a differing-size check, and a three-update same-size run
producing one reallocation and two partial updates. -/
theorem C1_update_realloc_policy_witness :
    ((Buffer.construct 5 none).size = -1) ∧
    ((Buffer.construct 5 none).update (BufferData.view 8) none =
      ({ target := GL_ARRAY_BUFFER, buffer := 5, size := 8 },
       [GLCall.bindBuffer GL_ARRAY_BUFFER 5,
        GLCall.bufferData GL_ARRAY_BUFFER 8 GL_DYNAMIC_DRAW])) ∧
    (countBufferData ((Buffer.construct 5 none).updates
        [(BufferData.view 8, none), (BufferData.arr [1, 2], some GL_STATIC_DRAW),
         (BufferData.view 8, none)]).2 = 1 ∧
     countBufferSubData ((Buffer.construct 5 none).updates
        [(BufferData.view 8, none), (BufferData.arr [1, 2], some GL_STATIC_DRAW),
         (BufferData.view 8, none)]).2 = 2) :=
  ⟨C1_update_realloc_policy.1 5 none,
   by
    have h := C1_update_realloc_policy.2.1 (Buffer.construct 5 none)
      (BufferData.view 8) none (by decide)
    simpa [Buffer.construct, BufferData.coercedByteLength] using h,
   C1_update_realloc_policy.2.2.2 5 none 8
     [(BufferData.view 8, none), (BufferData.arr [1, 2], some GL_STATIC_DRAW),
      (BufferData.view 8, none)] (by decide) (by decide)⟩

/-- C10: `update` with a plain JS number array first converts it to a
`Float32Array`, so both the reallocate-vs-patch decision and the recorded
cached size use four times the element count, and an omitted or null usage
argument defaults to the dynamic-draw hint. -/
theorem C10_update_array_float32 (b : Buffer) (xs : List Int) :
    b.update (BufferData.arr xs) none =
      (if b.size ≠ ((4 * xs.length : Nat) : Int) then
        ({ b with size := ((4 * xs.length : Nat) : Int) },
         [GLCall.bindBuffer b.target b.buffer,
          GLCall.bufferData b.target (4 * xs.length) GL_DYNAMIC_DRAW])
      else
        (b, [GLCall.bindBuffer b.target b.buffer,
             GLCall.bufferSubData b.target 0 (4 * xs.length)])) := by
  by_cases h : b.size = ((4 * xs.length : Nat) : Int)
  · rw [if_neg (by simpa using h)]
    exact update_subdata b (BufferData.arr xs) none h
  · rw [if_pos (by simpa using h)]
    simpa using update_realloc b (BufferData.arr xs) none (by simpa using h)

/-! ## Program wrapper (src/unnamed/part_001) -/

/-- The linked program as seen by the variable-resolution entry points of
the context: `gl.getUniformLocation(program, name)` and
`gl.getAttribLocation(program, name)` deterministically assign a location
to each name.  Uniform locations are opaque non-null values and attribute
indices are integers (possibly -1 for an unknown name); both are modelled
as integers. -/
structure LocContext where
  uniformLocOf : String → Int
  attribLocOf : String → Int

/-- The private name-to-location cache `#vars` of a `Program`, a JS object
mapping variable names to cached locations; a name absent from the object
reads as undefined, which the source tests with `this.#vars[name] == null`. -/
structure ProgVars where
  vars : String → Option Int

/-- The empty cache a fresh `Program` starts with (`#vars = {}`). -/
def ProgVars.empty : ProgVars := ⟨fun _ => none⟩

/-- JS object property assignment `this.#vars[name] = v`. -/
def ProgVars.set (s : ProgVars) (name : String) (v : Int) : ProgVars :=
  ⟨fun n => if n = name then some v else s.vars n⟩

/-- The absent-value branch of `uniform`:
`this.#vars[name] = this.gl.getUniformLocation(this.#program, name)`. -/
def Program.uniformDeclare (ctx : LocContext) (s : ProgVars) (name : String) :
    ProgVars × List GLCall :=
  (s.set name (ctx.uniformLocOf name), [GLCall.getUniformLocation name])

/-- The recursive self-call in the present-value branch of `uniform`:
`if (this.#vars[name] == null) this.uniform(name)`. -/
def Program.ensureUniformCached (ctx : LocContext) (s : ProgVars) (name : String) :
    ProgVars × List GLCall :=
  if s.vars name = none then Program.uniformDeclare ctx s name else (s, [])

/-- Runtime shape of the `value` argument of `uniform`: a numeric
array-like (plain array or typed array, as recognised by `Igloo.isArray`),
a scalar number, a boolean, or anything else, carried with the string
description that JS string coercion would give it.  Numeric payloads are
carried as integers; the dispatch logic only inspects the shape and the
length. -/
inductive UniformValue where
  | arr (xs : List Int)
  | num (x : Int)
  | bool (b : Bool)
  | other (desc : String)
  deriving DecidableEq, Repr

/-- Shapes accepted by the dispatch (everything except the `other` fallback
that throws). -/
def UniformValue.ok : UniformValue → Bool
  | .other _ => false
  | _ => true

/-- The dispatch at the end of `uniform` once the location `v` is in hand:
an array-like value selects the entry point named
`"uniform" + value.length + (i ? "i" : "f") + "v"` and is passed to it; a
scalar number or boolean goes to `gl.uniform1i` when `i` is set (a boolean
coerced to 0/1 by the WebGL binding) and to `gl.uniform1f` otherwise;
anything else throws `new Error("Invalid uniform value: " + value)`, whose
message is returned here as the error component. -/
def Program.uniformDispatch (loc : Int) (v : UniformValue) (i : Bool) :
    List GLCall × Option String :=
  match v with
  | .arr xs =>
    ([GLCall.callUniformMethod
        ("uniform" ++ toString xs.length ++ (if i then "i" else "f") ++ "v") loc xs],
     none)
  | .num x =>
    ([if i then GLCall.uniform1i loc x else GLCall.uniform1f loc x], none)
  | .bool b =>
    ([if i then GLCall.uniform1i loc (if b then 1 else 0)
      else GLCall.uniform1f loc (if b then 1 else 0)], none)
  | .other d => ([], some ("Invalid uniform value: " ++ d))

/-- `Program.uniform(name, value, i)`.  With no value it resolves and
caches the location; with a value it first ensures the name is cached
(resolving through the context only when absent) and then dispatches on the
runtime shape of the value.  The result is the updated cache, the emitted
context calls, and the message of the thrown error if any. -/
def Program.uniform (ctx : LocContext) (s : ProgVars) (name : String)
    (value : Option UniformValue) (i : Bool) :
    ProgVars × List GLCall × Option String :=
  match value with
  | none =>
    ((Program.uniformDeclare ctx s name).1, (Program.uniformDeclare ctx s name).2, none)
  | some v =>
    let e := Program.ensureUniformCached ctx s name
    let loc := (e.1.vars name).getD 0
    let d := Program.uniformDispatch loc v i
    (e.1, e.2 ++ d.1, d.2)

/-- The absent-value branch of `attrib`:
`this.#vars[name] = gl.getAttribLocation(this.#program, name)`. -/
def Program.attribDeclare (ctx : LocContext) (s : ProgVars) (name : String) :
    ProgVars × List GLCall :=
  (s.set name (ctx.attribLocOf name), [GLCall.getAttribLocation name])

/-- The recursive self-call in the present-value branch of `attrib`:
`if (this.#vars[name] == null) this.attrib(name)`. -/
def Program.ensureAttribCached (ctx : LocContext) (s : ProgVars) (name : String) :
    ProgVars × List GLCall :=
  if s.vars name = none then Program.attribDeclare ctx s name else (s, [])

/-- `Program.attrib(name, value, size, stride)`.  With a null buffer it
resolves and caches the attribute index; with a buffer it ensures the index
is cached, binds the buffer, enables the vertex-attribute array and
configures the pointer with `gl.FLOAT` components and
`stride == null ? 0 : stride`. -/
def Program.attrib (ctx : LocContext) (s : ProgVars) (name : String)
    (value : Option Buffer) (size : Option Int) (stride : Option Int) :
    ProgVars × List GLCall :=
  match value with
  | none => Program.attribDeclare ctx s name
  | some buf =>
    let e := Program.ensureAttribCached ctx s name
    let loc := (e.1.vars name).getD 0
    (e.1, e.2 ++ buf.bindCalls ++
      [GLCall.enableVertexAttribArray loc,
       GLCall.vertexAttribPointer loc size GL_FLOAT false (stride.getD 0) 0])

/-- Runtime shape of the `matrix` argument of `Program.matrix`: a plain
array (carried with its elements) or an `ArrayBufferView` (carried with its
byte length, the only property of it used for dispatch). -/
inductive MatrixArg where
  | arr (xs : List Int)
  | view (byteLength : Nat)
  deriving DecidableEq, Repr

/-- The `length` variable in `Program.matrix`: `matrix.byteLength` when
`ArrayBuffer.isView(matrix)` holds and `matrix.length` otherwise. -/
def MatrixArg.dispatchLength : MatrixArg → Nat
  | .arr xs => xs.length
  | .view byteLength => byteLength

/-- `Program.matrix(name, matrix, transpose)`: ensures the location is
cached, then invokes the entry point named
`"uniformMatrix" + Math.sqrt(length) + "fv"`.  `Math.sqrt` agrees with
`Nat.sqrt` on the perfect squares that every input considered here has. -/
def Program.matrix (ctx : LocContext) (s : ProgVars) (name : String)
    (m : MatrixArg) (transpose : Bool) : ProgVars × List GLCall :=
  let e := Program.ensureUniformCached ctx s name
  let method := "uniformMatrix" ++ toString (Nat.sqrt m.dispatchLength) ++ "fv"
  (e.1, e.2 ++ [GLCall.callMatrixMethod method ((e.1.vars name).getD 0) transpose])

/-- Modelled from the spec (section 4.1, UniformMatrix): the element count
of the matrix is its length for a plain sequence or its byte length divided
by 4 for a raw buffer view.  This definition exists only to be compared
with the dispatch length the source actually computes. -/
def matrixSpecElementCount : MatrixArg → Nat
  | .arr xs => xs.length
  | .view byteLength => byteLength / 4

/-- Modelled from the spec: the square-matrix entry point selected by the
integer square root of the spec-side element count. -/
def matrixSpecMethod (m : MatrixArg) : String :=
  "uniformMatrix" ++ toString (Nat.sqrt (matrixSpecElementCount m)) ++ "fv"

/-- Names of matrix entry points invoked in a trace. -/
def matrixMethods (t : List GLCall) : List String :=
  t.filterMap fun c => match c with
    | GLCall.callMatrixMethod method _ _ => some method
    | _ => none

/-- Whether a context call is one of the uniform-value entry points
(`uniform1f`, `uniform1i`, or a `uniform{L}{f,i}v` vector method). -/
def GLCall.isUniformEntry : GLCall → Bool
  | GLCall.callUniformMethod _ _ _ => true
  | GLCall.uniform1f _ _ => true
  | GLCall.uniform1i _ _ => true
  | _ => false

/-- The uniform-value entry-point calls of a trace, in order. -/
def uniformEntries (t : List GLCall) : List GLCall :=
  t.filter GLCall.isUniformEntry

/-- Whether a context call resolves the location or index of `nm`
(`getUniformLocation` or `getAttribLocation`). -/
def GLCall.isResolveOf (nm : String) : GLCall → Bool
  | GLCall.getUniformLocation n => n = nm
  | GLCall.getAttribLocation n => n = nm
  | _ => false

/-- Number of context resolutions of the name `nm` in a trace. -/
def countResolve (nm : String) (t : List GLCall) : Nat :=
  t.countP (GLCall.isResolveOf nm)

/-- One data-setting call of the C2 scenario: a `uniform` call with a value
present or an `attrib` call with a buffer present. -/
inductive ProgCall where
  | uniformCall (name : String) (v : UniformValue) (i : Bool)
  | attribCall (name : String) (buf : Buffer) (size stride : Option Int)
  deriving DecidableEq, Repr

def ProgCall.name : ProgCall → String
  | .uniformCall n _ _ => n
  | .attribCall n _ _ _ => n

/-- Calls whose uniform value has a supported shape, so that no exception
interrupts the sequence. -/
def ProgCall.wellShaped : ProgCall → Bool
  | .uniformCall _ v _ => v.ok
  | .attribCall _ _ _ _ => true

/-- Run a sequence of `uniform`/`attrib` calls on one program, threading
the cache and concatenating the emitted context calls.  A thrown
`Invalid uniform value` exception propagates to the caller, so the rest of
the sequence is not executed. -/
def runProgCalls (ctx : LocContext) : List ProgCall → ProgVars → ProgVars × List GLCall
  | [], s => (s, [])
  | ProgCall.uniformCall n v i :: rest, s =>
    match Program.uniform ctx s n (some v) i with
    | (s1, t1, none) =>
      let r := runProgCalls ctx rest s1
      (r.1, t1 ++ r.2)
    | (s1, t1, some _) => (s1, t1)
  | ProgCall.attribCall n buf sz st :: rest, s =>
    let a := Program.attrib ctx s n (some buf) sz st
    let r := runProgCalls ctx rest a.1
    (r.1, a.2 ++ r.2)

theorem countResolve_append (nm : String) (a b : List GLCall) :
    countResolve nm (a ++ b) = countResolve nm a + countResolve nm b := by
  simp [countResolve, List.countP_append]

theorem ensureUniform_vars_self (ctx : LocContext) (s : ProgVars) (name : String) :
    (Program.ensureUniformCached ctx s name).1.vars name ≠ none := by
  by_cases h : s.vars name = none <;>
    simp [Program.ensureUniformCached, Program.uniformDeclare, ProgVars.set, h]

theorem ensureUniform_vars_other (ctx : LocContext) (s : ProgVars) (name nm : String)
    (hnm : nm ≠ name) :
    (Program.ensureUniformCached ctx s name).1.vars nm = s.vars nm := by
  by_cases h : s.vars name = none <;>
    simp [Program.ensureUniformCached, Program.uniformDeclare, ProgVars.set, h, hnm]

theorem ensureUniform_count (ctx : LocContext) (s : ProgVars) (name nm : String) :
    countResolve nm (Program.ensureUniformCached ctx s name).2 =
      if name = nm ∧ s.vars name = none then 1 else 0 := by
  by_cases hn : name = nm
  · subst hn
    by_cases h : s.vars name = none <;>
      simp [Program.ensureUniformCached, Program.uniformDeclare, countResolve,
            GLCall.isResolveOf, h]
  · by_cases h : s.vars name = none <;>
      simp [Program.ensureUniformCached, Program.uniformDeclare, countResolve,
            GLCall.isResolveOf, h, hn]

theorem ensureAttrib_vars_self (ctx : LocContext) (s : ProgVars) (name : String) :
    (Program.ensureAttribCached ctx s name).1.vars name ≠ none := by
  by_cases h : s.vars name = none <;>
    simp [Program.ensureAttribCached, Program.attribDeclare, ProgVars.set, h]

theorem ensureAttrib_vars_other (ctx : LocContext) (s : ProgVars) (name nm : String)
    (hnm : nm ≠ name) :
    (Program.ensureAttribCached ctx s name).1.vars nm = s.vars nm := by
  by_cases h : s.vars name = none <;>
    simp [Program.ensureAttribCached, Program.attribDeclare, ProgVars.set, h, hnm]

theorem ensureAttrib_count (ctx : LocContext) (s : ProgVars) (name nm : String) :
    countResolve nm (Program.ensureAttribCached ctx s name).2 =
      if name = nm ∧ s.vars name = none then 1 else 0 := by
  by_cases hn : name = nm
  · subst hn
    by_cases h : s.vars name = none <;>
      simp [Program.ensureAttribCached, Program.attribDeclare, countResolve,
            GLCall.isResolveOf, h]
  · by_cases h : s.vars name = none <;>
      simp [Program.ensureAttribCached, Program.attribDeclare, countResolve,
            GLCall.isResolveOf, h, hn]

theorem uniformDispatch_countResolve (nm : String) (loc : Int) (v : UniformValue)
    (i : Bool) :
    countResolve nm (Program.uniformDispatch loc v i).1 = 0 := by
  cases v <;> cases i <;>
    simp [Program.uniformDispatch, countResolve, GLCall.isResolveOf]

theorem uniformDispatch_ok_none (loc : Int) (v : UniformValue) (i : Bool)
    (hv : v.ok = true) :
    (Program.uniformDispatch loc v i).2 = none := by
  cases v <;> simp_all [Program.uniformDispatch, UniformValue.ok]

theorem runProgCalls_uniform_cons (ctx : LocContext) (n : String) (v : UniformValue)
    (i : Bool) (rest : List ProgCall) (s : ProgVars) (hv : v.ok = true) :
    runProgCalls ctx (ProgCall.uniformCall n v i :: rest) s =
      ((runProgCalls ctx rest (Program.ensureUniformCached ctx s n).1).1,
       ((Program.ensureUniformCached ctx s n).2 ++
        (Program.uniformDispatch
          (((Program.ensureUniformCached ctx s n).1.vars n).getD 0) v i).1) ++
       (runProgCalls ctx rest (Program.ensureUniformCached ctx s n).1).2) := by
  cases v with
  | other d => simp [UniformValue.ok] at hv
  | arr xs => simp [runProgCalls, Program.uniform, Program.uniformDispatch]
  | num x => simp [runProgCalls, Program.uniform, Program.uniformDispatch]
  | bool b => simp [runProgCalls, Program.uniform, Program.uniformDispatch]

theorem runProgCalls_attrib_cons (ctx : LocContext) (n : String) (buf : Buffer)
    (sz st : Option Int) (rest : List ProgCall) (s : ProgVars) :
    runProgCalls ctx (ProgCall.attribCall n buf sz st :: rest) s =
      ((runProgCalls ctx rest (Program.ensureAttribCached ctx s n).1).1,
       ((Program.ensureAttribCached ctx s n).2 ++
        (buf.bindCalls ++
         [GLCall.enableVertexAttribArray
            (((Program.ensureAttribCached ctx s n).1.vars n).getD 0),
          GLCall.vertexAttribPointer
            (((Program.ensureAttribCached ctx s n).1.vars n).getD 0)
            sz GL_FLOAT false (st.getD 0) 0])) ++
       (runProgCalls ctx rest (Program.ensureAttribCached ctx s n).1).2) := by
  simp [runProgCalls, Program.attrib]

/-- For a well-shaped call sequence, the count of context resolutions of a
name is 1 when the name starts uncached and is used by some call, else 0. -/
theorem runProgCalls_count (ctx : LocContext) (nm : String) :
    ∀ (calls : List ProgCall) (s : ProgVars),
      (∀ c ∈ calls, c.wellShaped = true) →
      countResolve nm (runProgCalls ctx calls s).2 =
        if s.vars nm = none ∧ nm ∈ calls.map ProgCall.name then 1 else 0 := by
  intro calls
  induction calls with
  | nil => intro s _; simp [runProgCalls, countResolve]
  | cons c rest ih =>
    intro s hw
    have hwrest : ∀ x ∈ rest, x.wellShaped = true :=
      fun x hx => hw x (List.mem_cons_of_mem _ hx)
    cases c with
    | uniformCall n v i =>
      have hv : v.ok = true := hw _ (List.mem_cons_self _ _)
      rw [runProgCalls_uniform_cons ctx n v i rest s hv]
      simp only [countResolve_append]
      rw [ensureUniform_count, uniformDispatch_countResolve, ih _ hwrest]
      by_cases hnm : nm = n
      · subst hnm
        have hself := ensureUniform_vars_self ctx s nm
        by_cases hs : s.vars nm = none <;> simp [hs, hself, ProgCall.name]
      · have hother := ensureUniform_vars_other ctx s n nm hnm
        simp [hother, ProgCall.name, Ne.symm hnm, hnm]
    | attribCall n buf sz st =>
      rw [runProgCalls_attrib_cons ctx n buf sz st rest s]
      simp only [countResolve_append]
      rw [ensureAttrib_count, ih _ hwrest]
      have h1 : countResolve nm buf.bindCalls = 0 := by
        simp [countResolve, Buffer.bindCalls, GLCall.isResolveOf]
      have h2 : ∀ loc : Int, countResolve nm
          [GLCall.enableVertexAttribArray loc,
           GLCall.vertexAttribPointer loc sz GL_FLOAT false (st.getD 0) 0] = 0 := by
        intro loc
        simp [countResolve, GLCall.isResolveOf]
      rw [h1, h2]
      by_cases hnm : nm = n
      · subst hnm
        have hself := ensureAttrib_vars_self ctx s nm
        by_cases hs : s.vars nm = none <;> simp [hs, hself, ProgCall.name]
      · have hother := ensureAttrib_vars_other ctx s n nm hnm
        simp [hother, ProgCall.name, Ne.symm hnm, hnm]

/-- C2: on a freshly constructed Program, any well-shaped sequence of
`uniform` calls with a value present and `attrib` calls with a buffer
present resolves each distinct name through the context exactly once (and
names never used are never resolved): the first call with a name queries
and caches its location, later calls with the same name hit the cache, and
a previously unseen name triggers exactly one more resolution. -/
theorem C2_location_cache_single_resolve (ctx : LocContext) (calls : List ProgCall)
    (nm : String) (hw : ∀ c ∈ calls, c.wellShaped = true) :
    countResolve nm (runProgCalls ctx calls ProgVars.empty).2 =
      if nm ∈ calls.map ProgCall.name then 1 else 0 := by
  have h := runProgCalls_count ctx nm calls ProgVars.empty hw
  simpa [ProgVars.empty] using h

/-- A deterministic context used to instantiate the Program theorems. -/
def probeCtx : LocContext := ⟨fun _ => 7, fun _ => 3⟩

/-- Witness for C2 at a concrete sequence: three calls on the name u and
one attrib call on the name a give exactly one resolution of u, one of a,
and none of an unused name z. -/
theorem C2_location_cache_single_resolve_witness :
    (countResolve "u" (runProgCalls probeCtx
      [ProgCall.uniformCall "u" (UniformValue.num 1) false,
       ProgCall.uniformCall "u" (UniformValue.arr [1, 2, 3]) false,
       ProgCall.attribCall "a" (Buffer.construct 1 none) (some 2) none,
       ProgCall.uniformCall "u" (UniformValue.bool true) true]
      ProgVars.empty).2 = 1) ∧
    (countResolve "a" (runProgCalls probeCtx
      [ProgCall.uniformCall "u" (UniformValue.num 1) false,
       ProgCall.uniformCall "u" (UniformValue.arr [1, 2, 3]) false,
       ProgCall.attribCall "a" (Buffer.construct 1 none) (some 2) none,
       ProgCall.uniformCall "u" (UniformValue.bool true) true]
      ProgVars.empty).2 = 1) ∧
    (countResolve "z" (runProgCalls probeCtx
      [ProgCall.uniformCall "u" (UniformValue.num 1) false,
       ProgCall.uniformCall "u" (UniformValue.arr [1, 2, 3]) false,
       ProgCall.attribCall "a" (Buffer.construct 1 none) (some 2) none,
       ProgCall.uniformCall "u" (UniformValue.bool true) true]
      ProgVars.empty).2 = 0) := by
  refine ⟨?_, ?_, ?_⟩ <;>
  · rw [C2_location_cache_single_resolve probeCtx _ _ (by decide)]
    decide

theorem ensureUniform_entries (ctx : LocContext) (s : ProgVars) (name : String) :
    uniformEntries (Program.ensureUniformCached ctx s name).2 = [] := by
  by_cases h : s.vars name = none <;>
    simp [Program.ensureUniformCached, Program.uniformDeclare, uniformEntries,
          GLCall.isUniformEntry, h]

/-- C3: `uniform` with a value present dispatches on the runtime shape of
the value: a numeric array-like of length L in 1..4 invokes exactly the
vector entry point `uniform{L}fv`, or `uniform{L}iv` when the integer flag
is set; a scalar number or boolean invokes `uniform1f`, or `uniform1i` when
the flag is set, a boolean being coerced to 0 or 1; any other shape throws
an error carrying the description of the rejected value and invokes no
uniform entry point at all. -/
theorem C3_uniform_shape_dispatch (ctx : LocContext) (s : ProgVars) (name : String)
    (i : Bool) :
    (∀ xs : List Int,
      xs.length = 1 ∨ xs.length = 2 ∨ xs.length = 3 ∨ xs.length = 4 →
      ∃ loc : Int,
        uniformEntries (Program.uniform ctx s name (some (UniformValue.arr xs)) i).2.1 =
          [GLCall.callUniformMethod
            ("uniform" ++ toString xs.length ++ (if i then "i" else "f") ++ "v")
            loc xs] ∧
        (Program.uniform ctx s name (some (UniformValue.arr xs)) i).2.2 = none) ∧
    (∀ x : Int, ∃ loc : Int,
        uniformEntries (Program.uniform ctx s name (some (UniformValue.num x)) i).2.1 =
          [if i then GLCall.uniform1i loc x else GLCall.uniform1f loc x] ∧
        (Program.uniform ctx s name (some (UniformValue.num x)) i).2.2 = none) ∧
    (∀ b : Bool, ∃ loc : Int,
        uniformEntries (Program.uniform ctx s name (some (UniformValue.bool b)) i).2.1 =
          [if i then GLCall.uniform1i loc (if b then 1 else 0)
           else GLCall.uniform1f loc (if b then 1 else 0)] ∧
        (Program.uniform ctx s name (some (UniformValue.bool b)) i).2.2 = none) ∧
    (∀ d : String,
        (Program.uniform ctx s name (some (UniformValue.other d)) i).2.2 =
          some ("Invalid uniform value: " ++ d) ∧
        uniformEntries (Program.uniform ctx s name (some (UniformValue.other d)) i).2.1
          = []) := by
  have he := ensureUniform_entries ctx s name
  refine ⟨?_, ?_, ?_, ?_⟩
  · intro xs _
    refine ⟨((Program.ensureUniformCached ctx s name).1.vars name).getD 0, ?_, rfl⟩
    simp only [Program.uniform, Program.uniformDispatch, uniformEntries,
               List.filter_append] at he ⊢
    simp [he, GLCall.isUniformEntry]
  · intro x
    refine ⟨((Program.ensureUniformCached ctx s name).1.vars name).getD 0, ?_, rfl⟩
    simp only [Program.uniform, Program.uniformDispatch, uniformEntries,
               List.filter_append] at he ⊢
    cases i <;> simp [he, GLCall.isUniformEntry]
  · intro b
    refine ⟨((Program.ensureUniformCached ctx s name).1.vars name).getD 0, ?_, rfl⟩
    simp only [Program.uniform, Program.uniformDispatch, uniformEntries,
               List.filter_append] at he ⊢
    cases i <;> simp [he, GLCall.isUniformEntry]
  · intro d
    refine ⟨rfl, ?_⟩
    simp only [Program.uniform, Program.uniformDispatch, uniformEntries,
               List.filter_append] at he ⊢
    simp [he]

/-- Witness for C3 at concrete inputs: a four-element array dispatches to
the entry point named uniform4fv, and an unsupported shape is rejected with
its description in the error message. -/
theorem C3_uniform_shape_dispatch_witness :
    (∃ loc : Int,
      uniformEntries (Program.uniform probeCtx ProgVars.empty "u"
          (some (UniformValue.arr [1, 2, 3, 4])) false).2.1 =
        [GLCall.callUniformMethod
          ("uniform" ++ toString ([1, 2, 3, 4] : List Int).length ++
           (if false then "i" else "f") ++ "v") loc [1, 2, 3, 4]] ∧
      (Program.uniform probeCtx ProgVars.empty "u"
          (some (UniformValue.arr [1, 2, 3, 4])) false).2.2 = none) ∧
    ("uniform" ++ toString ([1, 2, 3, 4] : List Int).length ++
       (if false then "i" else "f") ++ "v" = "uniform4fv") ∧
    ((Program.uniform probeCtx ProgVars.empty "u"
        (some (UniformValue.other "desc")) false).2.2 =
      some ("Invalid uniform value: " ++ "desc")) :=
  ⟨(C3_uniform_shape_dispatch probeCtx ProgVars.empty "u" false).1 [1, 2, 3, 4]
      (by decide),
   by decide,
   ((C3_uniform_shape_dispatch probeCtx ProgVars.empty "u" false).2.2.2 "desc").1⟩

/-- C4: the matrix dispatch of the source uses the raw byte length of a
buffer view, not the byte length divided by 4.  A Float32Array holding the
16 elements of a 4 by 4 matrix has byte length 64, so the source selects
the entry point named uniformMatrix8fv, which does not exist, while the
spec-side element count 64 / 4 = 16 selects uniformMatrix4fv.  The
plain-sequence part of the claim does hold: 16 and 9 element sequences
dispatch to uniformMatrix4fv and uniformMatrix3fv. -/
theorem C4_matrix_view_bytelength_bug :
    matrixMethods (Program.matrix probeCtx ProgVars.empty "m"
        (MatrixArg.view 64) false).2 = ["uniformMatrix8fv"] ∧
    matrixSpecElementCount (MatrixArg.view 64) = 16 ∧
    matrixSpecMethod (MatrixArg.view 64) = "uniformMatrix4fv" ∧
    ("uniformMatrix8fv" : String) ≠ "uniformMatrix4fv" ∧
    matrixMethods (Program.matrix probeCtx ProgVars.empty "m"
        (MatrixArg.arr (List.replicate 16 0)) false).2 = ["uniformMatrix4fv"] ∧
    matrixMethods (Program.matrix probeCtx ProgVars.empty "m"
        (MatrixArg.arr (List.replicate 9 0)) false).2 = ["uniformMatrix3fv"] := by
  have h64 : Nat.sqrt 64 = 8 := by
    rw [show (64 : Nat) = 8 * 8 from rfl, Nat.sqrt_eq]
  have h16 : Nat.sqrt 16 = 4 := by
    rw [show (16 : Nat) = 4 * 4 from rfl, Nat.sqrt_eq]
  have h9 : Nat.sqrt 9 = 3 := by
    rw [show (9 : Nat) = 3 * 3 from rfl, Nat.sqrt_eq]
  refine ⟨?_, rfl, ?_, by decide, ?_, ?_⟩
  · simp only [Program.matrix, matrixMethods, MatrixArg.dispatchLength, h64,
               Program.ensureUniformCached, Program.uniformDeclare, ProgVars.empty]
    decide
  · simp only [matrixSpecMethod, matrixSpecElementCount]
    rw [show (64 / 4 : Nat) = 16 from rfl, h16]
    decide
  · simp only [Program.matrix, matrixMethods, MatrixArg.dispatchLength,
               List.length_replicate, h16, Program.ensureUniformCached,
               Program.uniformDeclare, ProgVars.empty]
    decide
  · simp only [Program.matrix, matrixMethods, MatrixArg.dispatchLength,
               List.length_replicate, h9, Program.ensureUniformCached,
               Program.uniformDeclare, ProgVars.empty]
    decide

/-! ## Program construction (src/unnamed/part_001, lines 16-38) -/

/-- Compile and link behaviour of the context: success of
`gl.getShaderParameter(shader, gl.COMPILE_STATUS)` per shader type and
source, the diagnostic text of `gl.getShaderInfoLog`, success of
`gl.getProgramParameter(p, gl.LINK_STATUS)`, and the text of
`gl.getProgramInfoLog`. -/
structure ShaderContext where
  compileOk : Nat → String → Bool
  shaderInfoLog : Nat → String → String
  linkOk : Bool
  programInfoLog : String

/-- Errors thrown while constructing a `Program`.  The source throws plain
`Error` objects whose message is the diagnostic text; the spec taxonomy
names the compile-stage one ShaderCompileError and the link-stage one
ProgramLinkError. -/
inductive ProgramError where
  | shaderCompileError (log : String)
  | programLinkError (log : String)
  deriving DecidableEq, Repr

/-- `Program.makeShader(type, source)`: create, source and compile a
shader; return it on compile success, otherwise throw an error carrying
`gl.getShaderInfoLog(shader)`. -/
def makeShader (ctx : ShaderContext) (shaderType : Nat) (source : String) :
    Except ProgramError Unit × List GLCall :=
  let t := [GLCall.createShader shaderType, GLCall.shaderSource shaderType source,
            GLCall.compileShader shaderType]
  if ctx.compileOk shaderType source then (Except.ok (), t)
  else
    (Except.error (ProgramError.shaderCompileError (ctx.shaderInfoLog shaderType source)),
     t)

/-- The `Program` constructor: create a program, compile and attach the
vertex shader, compile and attach the fragment shader, link, and throw an
error carrying `gl.getProgramInfoLog(p)` when the link status is false.  A
thrown compile error aborts construction at that point, so the calls made
so far form the trace. -/
def Program.construct (ctx : ShaderContext) (vertex fragment : String) :
    Except ProgramError Unit × List GLCall :=
  let t0 := [GLCall.createProgram]
  match makeShader ctx GL_VERTEX_SHADER vertex with
  | (Except.error e, t1) => (Except.error e, t0 ++ t1)
  | (Except.ok _, t1) =>
    match makeShader ctx GL_FRAGMENT_SHADER fragment with
    | (Except.error e, t2) =>
      (Except.error e, t0 ++ t1 ++ [GLCall.attachShader GL_VERTEX_SHADER] ++ t2)
    | (Except.ok _, t2) =>
      let t3 := t0 ++ t1 ++ [GLCall.attachShader GL_VERTEX_SHADER] ++ t2 ++
        [GLCall.attachShader GL_FRAGMENT_SHADER, GLCall.linkProgram]
      if ctx.linkOk then (Except.ok (), t3)
      else (Except.error (ProgramError.programLinkError ctx.programInfoLog), t3)

/-- C5: constructing a Program from a vertex source that fails to compile
throws the compile error carrying the compiler diagnostic and never reaches
the link step; when both stages compile but linking fails, construction
throws the link error carrying the linker diagnostic.  In both cases the
result is an error, never a usable program. -/
theorem C5_construct_errors (ctx : ShaderContext) (v f : String) :
    (ctx.compileOk GL_VERTEX_SHADER v = false →
      (Program.construct ctx v f).1 =
        Except.error
          (ProgramError.shaderCompileError (ctx.shaderInfoLog GL_VERTEX_SHADER v)) ∧
      GLCall.linkProgram ∉ (Program.construct ctx v f).2) ∧
    (ctx.compileOk GL_VERTEX_SHADER v = true →
      ctx.compileOk GL_FRAGMENT_SHADER f = true → ctx.linkOk = false →
      (Program.construct ctx v f).1 =
        Except.error (ProgramError.programLinkError ctx.programInfoLog)) := by
  constructor
  · intro h
    constructor <;> simp [Program.construct, makeShader, h]
  · intro hv hf hl
    simp [Program.construct, makeShader, hv, hf, hl]

/-- A context on which every compile fails with a fixed diagnostic. -/
def failCompileCtx : ShaderContext :=
  ⟨fun _ _ => false, fun _ _ => "syntax error", true, ""⟩

/-- A context on which compiles succeed but the link fails. -/
def failLinkCtx : ShaderContext :=
  ⟨fun _ _ => true, fun _ _ => "", false, "link error"⟩

/-- Witness for C5: under the failing-compile context construction reports
the compile diagnostic without ever linking, and under the failing-link
context it reports the link diagnostic. -/
theorem C5_construct_errors_witness :
    ((Program.construct failCompileCtx "v" "f").1 =
       Except.error (ProgramError.shaderCompileError "syntax error") ∧
     GLCall.linkProgram ∉ (Program.construct failCompileCtx "v" "f").2) ∧
    ((Program.construct failLinkCtx "v" "f").1 =
       Except.error (ProgramError.programLinkError "link error")) :=
  ⟨(C5_construct_errors failCompileCtx "v" "f").1 rfl,
   (C5_construct_errors failLinkCtx "v" "f").2 rfl rfl rfl⟩

/-! ## Texture wrapper (src/src/Texture.ts) -/

/-- State of a `Texture` wrapper: the GPU handle and the pixel format
stored at construction. -/
structure Texture where
  texture : Nat
  format : Nat
  deriving DecidableEq, Repr

/-- Runtime shape of the `source` argument of `set` and `subset`: a plain
JS number array (`source instanceof Array`), a raw pixel buffer
(`Uint8Array` / `ArrayBufferView`), or an image-like object with intrinsic
dimensions (`ImageData`), whose pixel contents no claim inspects. -/
inductive TexSource where
  | arr (xs : List Int)
  | bytes (xs : List Int)
  | image
  deriving DecidableEq, Repr

/-- `Texture.set(source, width, height)`: bind, then
`if (source instanceof Array)` convert it to a `Uint8Array` and fall
through the `else if` chain without any upload; `else if` the source is an
`ArrayBufferView`, upload it as a width-by-height image in the stored
format; `else` upload the image-like source directly.  Returns the texture
itself for chaining together with the emitted calls. -/
def Texture.set (t : Texture) (source : TexSource) (width height : Option Int) :
    Texture × List GLCall :=
  let bound := [GLCall.bindTexture t.texture]
  match source with
  | TexSource.arr _ => (t, bound)
  | TexSource.bytes xs =>
    (t, bound ++ [GLCall.texImage2D t.format width height GL_UNSIGNED_BYTE xs])
  | TexSource.image =>
    (t, bound ++ [GLCall.texImage2DSource t.format GL_UNSIGNED_BYTE])

/-- `Texture.subset(source, xoff, yoff, width, height)`: bind, convert a
plain array to a `Uint8Array` (values reduced mod 256), then for a raw
pixel buffer throw when both width and height are null and otherwise issue
the sized sub-rectangle upload; an image-like source is uploaded through
the overload without explicit dimensions.  The second component is the
message of the thrown error if any. -/
def Texture.subset (t : Texture) (source : TexSource) (xoff yoff : Int)
    (width height : Option Int) : List GLCall × Option String :=
  let bound := [GLCall.bindTexture t.texture]
  match source with
  | TexSource.arr xs =>
    if width.isNone && height.isNone then
      (bound, some "Must supply width or height when using an array")
    else
      (bound ++ [GLCall.texSubImage2D xoff yoff width height t.format GL_UNSIGNED_BYTE
        (xs.map fun x => x % 256)], none)
  | TexSource.bytes xs =>
    if width.isNone && height.isNone then
      (bound, some "Must supply width or height when using an array")
    else
      (bound ++ [GLCall.texSubImage2D xoff yoff width height t.format GL_UNSIGNED_BYTE xs],
       none)
  | TexSource.image =>
    (bound ++ [GLCall.texSubImage2DSource xoff yoff t.format GL_UNSIGNED_BYTE], none)

/-- C6: `subset` with a raw pixel buffer and both width and height omitted
throws the missing-dimensions error after binding, issuing no sub-image
upload, while the same call with an image-like source succeeds and issues
the sub-rectangle upload at the given offsets with the stored format. -/
theorem C6_subset_missing_dimensions (t : Texture) (xs : List Int) (xoff yoff : Int) :
    (Texture.subset t (TexSource.bytes xs) xoff yoff none none =
      ([GLCall.bindTexture t.texture],
       some "Must supply width or height when using an array")) ∧
    (Texture.subset t TexSource.image xoff yoff none none =
      ([GLCall.bindTexture t.texture,
        GLCall.texSubImage2DSource xoff yoff t.format GL_UNSIGNED_BYTE], none)) :=
  ⟨rfl, rfl⟩

/-- C9: `set` with a plain JS number array binds the texture and converts
the array to a `Uint8Array`, but the `if / else if / else` chain then ends
without taking either upload branch, so no image upload of any kind is
issued and the unchanged texture is returned for chaining. -/
theorem C9_set_array_no_upload (t : Texture) (xs : List Int) (w h : Option Int) :
    Texture.set t (TexSource.arr xs) w h = (t, [GLCall.bindTexture t.texture]) :=
  rfl

/-! ## Framebuffer wrapper (src/unnamed/part_003) and facade (part_002) -/

/-- State of a `Framebuffer` wrapper: the wrapped render-target handle
(`none` models the JS `null` standing for the context default target) and
the optional depth renderbuffer handle. -/
structure Framebuffer where
  framebuffer : Option Nat
  renderbuffer : Option Nat
  deriving DecidableEq, Repr

/-- The `Framebuffer` constructor:
`this.framebuffer = arguments.length == 2 ? framebuffer : gl.createFramebuffer()`.
Whether the handle argument was passed at all is the outer `Option`; the
passed handle itself, possibly the null default target, is the inner one.
`fresh` is the handle `gl.createFramebuffer()` would return. -/
def Framebuffer.construct (arg : Option (Option Nat)) (fresh : Nat) :
    Framebuffer × List GLCall :=
  match arg with
  | some handle => ({ framebuffer := handle, renderbuffer := none }, [])
  | none =>
    ({ framebuffer := some fresh, renderbuffer := none },
     [GLCall.createFramebuffer fresh])

/-- The facade constructor line
`this.defaultFramebuffer = new Framebuffer(this.gl, null)`: two arguments,
so the explicit null handle is wrapped. -/
def Igloo.defaultFramebuffer (fresh : Nat) : Framebuffer × List GLCall :=
  Framebuffer.construct (some none) fresh

/-- Calls issued by `Framebuffer.bind`. -/
def Framebuffer.bindCalls (fb : Framebuffer) : List GLCall :=
  [GLCall.bindFramebuffer fb.framebuffer]

/-- `Framebuffer.attachDepth(width, height)`: bind, then only when no
renderbuffer exists yet, create one (`fresh` models the handle the context
returns), allocate 16-bit depth storage of the given size and attach it as
the depth attachment. -/
def Framebuffer.attachDepth (fb : Framebuffer) (fresh : Nat) (width height : Nat) :
    Framebuffer × List GLCall :=
  match fb.renderbuffer with
  | none =>
    ({ fb with renderbuffer := some fresh },
     fb.bindCalls ++
       [GLCall.createRenderbuffer fresh,
        GLCall.renderbufferStorage GL_DEPTH_COMPONENT16 width height,
        GLCall.framebufferRenderbuffer GL_DEPTH_ATTACHMENT fresh])
  | some _ => (fb, fb.bindCalls)

/-- C7: the depth renderbuffer is created at most once per instance.  The
first `attachDepth` call allocates one renderbuffer, gives it 16-bit depth
storage of the requested size and attaches it as the depth attachment; a
second call with any dimensions only re-binds the framebuffer, performing
no allocation, no storage call and no attachment call, and leaves the
state, including the originally allocated renderbuffer, unchanged. -/
theorem C7_attachDepth_idempotent (fb : Framebuffer) (a b w h w2 h2 : Nat)
    (hrb : fb.renderbuffer = none) :
    (Framebuffer.attachDepth fb a w h =
      ({ fb with renderbuffer := some a },
       [GLCall.bindFramebuffer fb.framebuffer,
        GLCall.createRenderbuffer a,
        GLCall.renderbufferStorage GL_DEPTH_COMPONENT16 w h,
        GLCall.framebufferRenderbuffer GL_DEPTH_ATTACHMENT a])) ∧
    (Framebuffer.attachDepth (Framebuffer.attachDepth fb a w h).1 b w2 h2 =
      ((Framebuffer.attachDepth fb a w h).1,
       [GLCall.bindFramebuffer fb.framebuffer])) := by
  have h1 : Framebuffer.attachDepth fb a w h =
      ({ fb with renderbuffer := some a },
       [GLCall.bindFramebuffer fb.framebuffer,
        GLCall.createRenderbuffer a,
        GLCall.renderbufferStorage GL_DEPTH_COMPONENT16 w h,
        GLCall.framebufferRenderbuffer GL_DEPTH_ATTACHMENT a]) := by
    simp [Framebuffer.attachDepth, Framebuffer.bindCalls, hrb]
  refine ⟨h1, ?_⟩
  rw [h1]
  simp [Framebuffer.attachDepth, Framebuffer.bindCalls]

/-- Witness for C7 at a concrete instance: on a wrapper of handle 1 with
no depth renderbuffer, a second attach with different dimensions only
re-binds. -/
theorem C7_attachDepth_idempotent_witness :
    Framebuffer.attachDepth
        (Framebuffer.attachDepth ⟨some 1, none⟩ 4 10 20).1 5 30 40 =
      ((Framebuffer.attachDepth ⟨some 1, none⟩ 4 10 20).1,
       [GLCall.bindFramebuffer (some 1)]) :=
  (C7_attachDepth_idempotent ⟨some 1, none⟩ 4 5 10 20 30 40 rfl).2

/-- C8: a `Framebuffer` constructed with an explicitly supplied handle
argument, including an explicit null meaning the default target, wraps it
without invoking the allocation entry point, while construction with no
handle argument invokes it exactly once; the retained default framebuffer
of the facade, built by passing an explicit null, allocates nothing and
holds the null sentinel. -/
theorem C8_construct_arity (h : Option Nat) (fresh : Nat) :
    (Framebuffer.construct (some h) fresh =
      ({ framebuffer := h, renderbuffer := none }, [])) ∧
    (Framebuffer.construct none fresh =
      ({ framebuffer := some fresh, renderbuffer := none },
       [GLCall.createFramebuffer fresh])) ∧
    (Igloo.defaultFramebuffer fresh).1.framebuffer = none ∧
    (Igloo.defaultFramebuffer fresh).2 = [] :=
  ⟨rfl, rfl, rfl, rfl⟩

end IglooTS
